import Mathlib

/-
Verification development for the stripe-eventbridge-cdk repository.

The two procedural components are embedded shallowly:
  * `parseEventHandler` models `src/lib/lambda/parse_event.py` (the Normalizer);
  * `lambdaHandler` and its helpers model `src/lib/lambda/dynamo_put.py`
    (the Upserter), with the external collaborators (SSM, Secrets Manager,
    Stripe, the clock) supplied through an explicit environment record and
    the DynamoDB table supplied as an explicit association-list state.
-/

set_option autoImplicit false

namespace StripeEventBridge

/-! ## Python value model for the Normalizer (`parse_event.py`)

The Lambda input is a deserialized JSON document, manipulated as a Python
value.  `PyValue` covers exactly the values such a document can take:
dicts, lists, strings, ints, bools and None. -/

/-- Python values reachable from a deserialized JSON event. -/
inductive PyValue where
  | dict (kvs : List (PyValue × PyValue))
  | list (elems : List PyValue)
  | str (s : String)
  | int (n : Int)
  | bool (b : Bool)
  | pyNone

/-- Whether a Python value is hashable (usable as a dict key).
Dicts and lists are unhashable; the scalar values are hashable. -/
def pyHashable : PyValue → Bool
  | .dict _ => false
  | .list _ => false
  | _ => true

/-- Python equality test restricted to hashable JSON scalars, as used for
dict keys.  It mirrors the quirk that `True == 1` and `False == 0` in
Python (bool is a subclass of int). -/
def pyKeyEq : PyValue → PyValue → Bool
  | .str a, .str b => a = b
  | .int a, .int b => a = b
  | .bool a, .bool b => a = b
  | .int a, .bool b => a = (if b then (1 : Int) else 0)
  | .bool a, .int b => (if a then (1 : Int) else 0) = b
  | .pyNone, .pyNone => true
  | _, _ => false

/-- Interpreting one element of an iterable as a key-value pair, as the
Python `dict` constructor does when given an iterable: the element must be
a sequence of length two (a two-element list, a two-character string, or a
two-key dict, which iterates to its keys), and the resulting key must be
hashable.  `none` models the `TypeError`/`ValueError` raised otherwise. -/
def pairOf : PyValue → Option (PyValue × PyValue)
  | .list [k, v] => if pyHashable k then some (k, v) else none
  | .str s =>
      match s.data with
      | [c1, c2] => some (.str (String.mk [c1]), .str (String.mk [c2]))
      | _ => none
  | .dict [(k1, _), (k2, _)] => if pyHashable k1 then some (k1, k2) else none
  | _ => none

/-- Inserting a key-value pair into a dict under construction: an existing
equal key keeps its position and gets the new value, a new key is appended
(Python dicts preserve first-insertion order, last value wins). -/
def dictInsert : List (PyValue × PyValue) → PyValue → PyValue → List (PyValue × PyValue)
  | [], k, v => [(k, v)]
  | (k', v') :: rest, k, v =>
      if pyKeyEq k' k then (k', v) :: rest else (k', v') :: dictInsert rest k v

/-- Building a dict from a list of key-value pairs, in order. -/
def dictOfPairs (ps : List (PyValue × PyValue)) : List (PyValue × PyValue) :=
  ps.foldl (fun d kv => dictInsert d kv.1 kv.2) []

/-- The error class of the Normalizer.  The source raises the underlying
`TypeError`/`ValueError` coming out of `dict(event)`; the specification
names this failure `MalformedEventError`. -/
inductive NormErr where
  | malformedEvent
deriving DecidableEq

/-- Model of `lambda_handler` in `src/lib/lambda/parse_event.py`: the body
is `return dict(event)` inside a log-and-reraise wrapper.  `dict(x)` on a
dict is a copy equal to its input; on an iterable it builds a dict from
key-value pairs (so the empty list and the empty string give the empty
dict); on anything else it raises. -/
def parseEventHandler (event : PyValue) : Except NormErr PyValue :=
  match event with
  | .dict kvs => .ok (.dict kvs)
  | .list elems =>
      match elems.mapM pairOf with
      | some ps => .ok (.dict (dictOfPairs ps))
      | none => .error .malformedEvent
  | .str s => if s = "" then .ok (.dict []) else .error .malformedEvent
  | _ => .error .malformedEvent

/-! ## Storage model for the Upserter (`dynamo_put.py`)

A DynamoDB item is an attribute map, the table an item map keyed by the
`email` partition key.  Both are association lists. -/

/-- A stored DynamoDB attribute value: the handler stores strings, numbers
and nulls (a Python `None` becomes the NULL attribute type). -/
inductive AttrValue where
  | s (v : String)
  | n (v : Int)
  | null
deriving DecidableEq

/-- A stored item: attribute name to value. -/
abbrev Row := List (String × AttrValue)

/-- The table: email key to stored item. -/
abbrev Table := List (String × Row)

/-- Look up an attribute in an item. -/
def lookupAttr : Row → String → Option AttrValue
  | [], _ => none
  | (k, v) :: rest, a => if k = a then some v else lookupAttr rest a

/-- Set an attribute in an item: replace in place if present, append
otherwise (DynamoDB `SET` semantics). -/
def setAttr : Row → String → AttrValue → Row
  | [], k, v => [(k, v)]
  | (k', v') :: rest, k, v =>
      if k' = k then (k', v) :: rest else (k', v') :: setAttr rest k v

/-- Apply a list of attribute updates in order. -/
def setAttrs (r : Row) (updates : List (String × AttrValue)) : Row :=
  updates.foldl (fun acc kv => setAttr acc kv.1 kv.2) r

/-- Look up the item stored under an email key. -/
def lookupRow : Table → String → Option Row
  | [], _ => none
  | (k, r) :: rest, a => if k = a then some r else lookupRow rest a

/-- Store an item under an email key: replace in place if present, append
otherwise. -/
def setRow : Table → String → Row → Table
  | [], k, r => [(k, r)]
  | (k', r') :: rest, k, r =>
      if k' = k then (k', r) :: rest else (k', r') :: setRow rest k r

@[simp] theorem lookupAttr_setAttr_self (r : Row) (k : String) (v : AttrValue) :
    lookupAttr (setAttr r k v) k = some v := by
  induction r with
  | nil => simp [setAttr, lookupAttr]
  | cons p rest ih =>
      obtain ⟨k', v'⟩ := p
      by_cases h : k' = k <;> simp [setAttr, lookupAttr, h, ih]

theorem lookupAttr_setAttr_ne (r : Row) (k a : String) (v : AttrValue) (h : a ≠ k) :
    lookupAttr (setAttr r k v) a = lookupAttr r a := by
  have hka : ¬(k = a) := fun hh => h hh.symm
  induction r with
  | nil => simp [setAttr, lookupAttr, hka]
  | cons p rest ih =>
      obtain ⟨k', v'⟩ := p
      by_cases hk : k' = k
      · subst hk
        simp [setAttr, lookupAttr, hka]
      · simp [setAttr, lookupAttr, hk, ih]

@[simp] theorem lookupRow_setRow_self (t : Table) (k : String) (r : Row) :
    lookupRow (setRow t k r) k = some r := by
  induction t with
  | nil => simp [setRow, lookupRow]
  | cons p rest ih =>
      obtain ⟨k', r'⟩ := p
      by_cases h : k' = k <;> simp [setRow, lookupRow, h, ih]

theorem lookupRow_setRow_ne (t : Table) (k a : String) (r : Row) (h : a ≠ k) :
    lookupRow (setRow t k r) a = lookupRow t a := by
  have hka : ¬(k = a) := fun hh => h hh.symm
  induction t with
  | nil => simp [setRow, lookupRow, hka]
  | cons p rest ih =>
      obtain ⟨k', r'⟩ := p
      by_cases hk : k' = k
      · subst hk
        simp [setRow, lookupRow, hka]
      · simp [setRow, lookupRow, hk, ih]

theorem setRow_setRow_same (t : Table) (k : String) (r : Row) :
    setRow (setRow t k r) k r = setRow t k r := by
  induction t with
  | nil => simp [setRow]
  | cons p rest ih =>
      obtain ⟨k', r'⟩ := p
      by_cases h : k' = k <;> simp [setRow, h, ih]

/-! ## Stripe snapshots and the customer-resolution retry loop -/

/-- The plan block of a subscription snapshot (`subscription.plan`). -/
structure SubscriptionPlan where
  id : String
  amount : Int
deriving DecidableEq

/-- A subscription snapshot as consumed by the handler through `.get`
accesses: identifier, customer reference, status, start timestamp,
cancellation timestamp and optional plan block. -/
structure StripeSubscription where
  id : String
  customer : Option String
  status : Option String
  start_date : Option Int
  canceled_at : Option Int
  plan : Option SubscriptionPlan
deriving DecidableEq

/-- A customer snapshot as consumed by the handler: identifier, email
(the storage key), display name and address block. -/
structure StripeCustomer where
  id : String
  email : String
  name : Option String
  address : Option String
deriving DecidableEq

/-- Outcome of one `stripe.Customer.retrieve` call, mirroring the four
handled arms in `retrieve_customer`: success, `InvalidRequestError` with
code `resource_missing`, `InvalidRequestError` with another code,
another `StripeError`, or any other exception. -/
inductive CustomerResp where
  | found (c : StripeCustomer)
  | notFound
  | invalidRequest (msg : String)
  | stripeFailure (msg : String)
  | otherFailure (msg : String)
deriving DecidableEq

/-- The error classes the Upserter can raise.  In the source every raise
is a Python exception carrying a message (the outer handler re-wraps it
with an `Error processing DynamoDB operation:` prefix); the constructors
record which raise site produced it, matching the taxonomy named by the
specification. -/
inductive Err where
  | configuration (msg : String)
  | lookupFailure (msg : String)
  | customerResolution (msg : String)
  | stripeInvalid (msg : String)
  | stripeOther (msg : String)
  | unexpected (msg : String)
  | validation (msg : String)
  | unsupportedEventType (ty : String)
  | storage (msg : String)
deriving DecidableEq

/-- `max_retries = 5` in `retrieve_customer`. -/
def maxRetries : Nat := 5

/-- The body of the `for attempt in range(1, max_retries + 1)` loop in
`retrieve_customer`, iterating over the remaining attempt numbers.  The
oracle gives the outcome of the Stripe call at each attempt.  The second
component is the attempt number at which the loop exited (the number of
Stripe calls made).  The empty-list arm mirrors the loop running off the
end (the Python function would return `None`); it is unreachable from
`retrieveCustomer` because a not-found fifth attempt raises. -/
def retrieveCustomerGo (customerId : String) (oracle : Nat → CustomerResp) :
    List Nat → Except Err StripeCustomer × Nat
  | [] => (.error (.validation "retrieve_customer returned None"), 0)
  | attempt :: rest =>
      match oracle attempt with
      | .found c => (.ok c, attempt)
      | .notFound =>
          if attempt = maxRetries then
            (.error (.customerResolution
              ("Customer " ++ customerId ++ " not found after "
                ++ toString maxRetries ++ " attempts.")), attempt)
          else retrieveCustomerGo customerId oracle rest
      | .invalidRequest m => (.error (.stripeInvalid m), attempt)
      | .stripeFailure m => (.error (.stripeOther m), attempt)
      | .otherFailure m => (.error (.unexpected m), attempt)

/-- Model of `retrieve_customer`: up to `maxRetries` attempts, numbered
`1` through `5` as by `range(1, max_retries + 1)`. -/
def retrieveCustomer (customerId : String) (oracle : Nat → CustomerResp) :
    Except Err StripeCustomer × Nat :=
  retrieveCustomerGo customerId oracle (List.range' 1 maxRetries)

/-- `base_delay = 5` seconds in `retrieve_customer`. -/
def base_delay : ℚ := 5

/-- `delay = base_delay * (2 ** (attempt - 1))`. -/
def backoffDelay (attempt : Nat) : ℚ := base_delay * 2 ^ (attempt - 1)

/-- `sleep_time = delay + jitter` where
`jitter = random.uniform(0, 0.1 * delay)`; `u` models the underlying
`random.random()` draw in `[0, 1)`, so `jitter = 0.1 * delay * u`. -/
def jitteredSleep (attempt : Nat) (u : ℚ) : ℚ :=
  backoffDelay attempt + 1 / 10 * backoffDelay attempt * u

/-! ## Item construction and the DynamoDB operations -/

/-- A possibly missing string attribute (`None` stores as NULL). -/
def optStr : Option String → AttrValue
  | some s => .s s
  | none => .null

/-- A possibly missing numeric attribute (`None` stores as NULL). -/
def optInt : Option Int → AttrValue
  | some n => .n n
  | none => .null

/-- The `item` dict assembled in `lambda_handler` (lines 163-177 of
`dynamo_put.py`).  `today` models the `%Y-%m-%d` formatting of the
current time and `nowTs` the `%Y-%m-%dT%H:%M:%SZ` formatting. -/
def buildItem (sub : StripeSubscription) (cust : StripeCustomer)
    (today nowTs : String) : Row :=
  [("email", .s cust.email),
   ("subscription_id", .s sub.id),
   ("customer_id", .s cust.id),
   ("full_name", optStr cust.name),
   ("subscriber_info", optStr cust.address),
   ("status", optStr sub.status),
   ("start_date", optInt sub.start_date),
   ("end_date", optInt sub.canceled_at),
   ("plan_id", match sub.plan with | some p => AttrValue.s p.id | none => AttrValue.null),
   ("amount", match sub.plan with | some p => AttrValue.n p.amount | none => AttrValue.null),
   ("last_updated", .s today),
   ("subscription_date", .s today),
   ("signup_timestamp", .s nowTs)]

/-- `table.put_item(Item=item)`: full replace of the row under the
`email` attribute of the item.  A missing or non-string key attribute is a
`ClientError` (ValidationException) from DynamoDB. -/
def putItem (t : Table) (item : Row) : Except String Table :=
  match lookupAttr item "email" with
  | some (.s k) => .ok (setRow t k item)
  | _ => .error "One or more parameter values were invalid: Missing the key email"

/-- The row an `update_item` starts from: the stored row when present,
otherwise a fresh row holding only the key attribute (DynamoDB creates
the item when the key is absent). -/
def baseRow (t : Table) (key : String) : Row :=
  match lookupRow t key with
  | some r => r
  | none => [("email", AttrValue.s key)]

/-- `table.update_item(Key=..., UpdateExpression="SET ...")`: applies the
attribute updates to the row under the key, creating the row from just
the key attribute when absent.  The second component models the
`UPDATED_NEW` attributes of the response (the new values of exactly the
updated attributes). -/
def updateItem (t : Table) (key : String) (updates : List (String × AttrValue)) :
    Table × Row :=
  (setRow t key (setAttrs (baseRow t key) updates), updates)

/-! ## The Upserter handler -/

/-- The inbound event as consumed by the handler:
`event["Payload"]["detail-type"]` and
`event["Payload"]["detail"]["data"]["object"]["id"]`. -/
structure Event where
  detailType : String
  objectId : String
deriving DecidableEq

/-- The environment of one invocation: the two environment variables, the
SSM parameter lookup, the secret lookup (a JSON object, accessed with
`.get("api_key")`), the subscription lookup, the per-attempt customer
lookup oracle, and the two clock formattings used to stamp the item. -/
structure Env where
  tableParamName : Option String
  secretNameVar : Option String
  ssmTableName : String → Except String String
  secretOf : String → Except String (List (String × String))
  subscriptionOf : String → Except String StripeSubscription
  customerOracle : String → Nat → CustomerResp
  today : String
  nowTs : String

/-- A normal (non-raising) return of the handler: either the success
payload of lines 231-237, or one of the two `{"status": "error", ...}`
dicts returned at lines 141 and 149 of `dynamo_put.py`. -/
inductive HandlerOutput where
  | success (message subscription_id customer_id operation : String)
      (updated_fields : Row)
  | errorReturn (status message : String)
deriving DecidableEq

/-- Outcome of the resolution phase (lines 133-161): an exception
propagated to the caller, a normal error-describing return, or the
resolved subscription and customer snapshots. -/
inductive ResolveOutcome where
  | raised (e : Err)
  | returned (out : HandlerOutput)
  | resolved (sub : StripeSubscription) (cust : StripeCustomer)
deriving DecidableEq

/-- Lines 133-161 of `lambda_handler`: configuration resolution, secret
and API-key check, subscription lookup, customer-reference check,
customer retrieval with retries, and the presence validation of line 152
(`not event_type` is True exactly for the empty string, since
subscription and customer are non-null objects here).  The line 154
message quotes the three field names; the quotes are omitted here. -/
def resolvePhase (env : Env) (ev : Event) : ResolveOutcome :=
  match env.tableParamName with
  | none => .raised (.unexpected "KeyError: SUBSCRIBERS_TABLE_NAME_PARAM")
  | some paramName =>
    match env.ssmTableName paramName with
    | .error m => .raised (.configuration m)
    | .ok _tableName =>
      match env.secretOf (env.secretNameVar.getD "stripe/api/sandbox/api_key") with
      | .error m => .raised (.configuration m)
      | .ok secret =>
        match secret.lookup "api_key" with
        | none => .returned (.errorReturn "error" "API key not found.")
        | some apiKey =>
          if apiKey = "" then .returned (.errorReturn "error" "API key not found.")
          else
            match env.subscriptionOf ev.objectId with
            | .error m => .raised (.lookupFailure m)
            | .ok sub =>
              match sub.customer with
              | none => .returned (.errorReturn "error" "No customer ID found in subscription.")
              | some cid =>
                if cid = "" then
                  .returned (.errorReturn "error" "No customer ID found in subscription.")
                else
                  match (retrieveCustomer cid (env.customerOracle cid)).1 with
                  | .error e => .raised e
                  | .ok cust =>
                    if ev.detailType = "" then
                      .raised (.validation
                        "Missing subscription, customer, or event_type in the event.")
                    else .resolved sub cust

/-- The three event types routed to `put_item` (line 182). -/
def knownPutTypes : List String :=
  ["customer.subscription.created", "customer.subscription.resumed",
   "customer.subscription.updated"]

/-- The `SET` updates of the `customer.subscription.deleted` branch
(lines 191-205): status, end_date and last_updated. -/
def deletedUpdates (sub : StripeSubscription) (today : String) :
    List (String × AttrValue) :=
  [("status", .s "canceled"), ("end_date", optInt sub.canceled_at),
   ("last_updated", .s today)]

/-- The `SET` updates of the `customer.subscription.paused` branch
(lines 209-222): status and last_updated. -/
def pausedUpdates (today : String) : List (String × AttrValue) :=
  [("status", .s "paused"), ("last_updated", .s today)]

/-- Lines 163-237 of `lambda_handler`: build the item, dispatch on the
event type, perform the one storage operation of the taken branch, and
build the success payload.  A `put_item` response carries no
`Attributes`, so `updated_fields` is empty there; the update branches
report the `UPDATED_NEW` attributes. -/
def dispatchPhase (env : Env) (ev : Event) (sub : StripeSubscription)
    (cust : StripeCustomer) (table : Table) : Except Err HandlerOutput × Table :=
  let item := buildItem sub cust env.today env.nowTs
  if ev.detailType ∈ knownPutTypes then
    match putItem table item with
    | .error m => (.error (.storage ("DynamoDB ClientError: " ++ m)), table)
    | .ok t2 =>
        (.ok (.success ("Subscription " ++ sub.id ++ " inserted/updated successfully.")
          sub.id cust.id "inserted/updated" []), t2)
  else if ev.detailType = "customer.subscription.deleted" then
    let r := updateItem table cust.email (deletedUpdates sub env.today)
    (.ok (.success ("Subscription " ++ sub.id ++ " canceled successfully.")
      sub.id cust.id "canceled" r.2), r.1)
  else if ev.detailType = "customer.subscription.paused" then
    let r := updateItem table cust.email (pausedUpdates env.today)
    (.ok (.success ("Subscription " ++ sub.id ++ " paused successfully.")
      sub.id cust.id "paused" r.2), r.1)
  else
    (.error (.unsupportedEventType ("Unhandled event type: " ++ ev.detailType)), table)

/-- Model of `lambda_handler` in `src/lib/lambda/dynamo_put.py`: the
resolution phase either raises, returns an error payload, or hands the
snapshots to the dispatch phase, which performs the single storage
mutation of the invocation. -/
def lambdaHandler (env : Env) (ev : Event) (table : Table) :
    Except Err HandlerOutput × Table :=
  match resolvePhase env ev with
  | .raised e => (.error e, table)
  | .returned out => (.ok out, table)
  | .resolved sub cust => dispatchPhase env ev sub cust table

deriving instance DecidableEq for Except

/-! ## Concrete fixtures used by the witnesses -/

/-- A subscription snapshot matching the §8 scenario of the spec. -/
def sampleSub : StripeSubscription :=
  { id := "sub_1", customer := some "cus_1", status := some "active",
    start_date := some 100, canceled_at := some 200,
    plan := some { id := "plan_1", amount := 999 } }

/-- A customer snapshot matching the §8 scenario of the spec. -/
def sampleCust : StripeCustomer :=
  { id := "cus_1", email := "a@example.com", name := some "A",
    address := some "addr" }

/-- An environment in which every collaborator lookup succeeds on the
first attempt. -/
def okEnv : Env :=
  { tableParamName := some "subscribers-table-param",
    secretNameVar := none,
    ssmTableName := fun _ => .ok "subscribers",
    secretOf := fun _ => .ok [("api_key", "sk_test_1")],
    subscriptionOf := fun _ => .ok sampleSub,
    customerOracle := fun _ _ => .found sampleCust,
    today := "2026-10-12",
    nowTs := "2026-10-12T00:00:00Z" }

/-- A created-type event for the sample subscription. -/
def sampleEvent : Event :=
  { detailType := "customer.subscription.created", objectId := "sub_1" }

/-! ## Helper lemmas about the effect of the handler on the table -/

theorem putItem_buildItem (t : Table) (sub : StripeSubscription)
    (cust : StripeCustomer) (today nowTs : String) :
    putItem t (buildItem sub cust today nowTs) =
      .ok (setRow t cust.email (buildItem sub cust today nowTs)) := by
  simp [putItem, buildItem, lookupAttr]

/-- Every invocation either leaves the table unchanged or stores one row
under one key. -/
theorem lambdaHandler_table_shape (env : Env) (ev : Event) (t : Table) :
    (lambdaHandler env ev t).2 = t
    ∨ ∃ k r, (lambdaHandler env ev t).2 = setRow t k r := by
  unfold lambdaHandler
  cases resolvePhase env ev with
  | raised e => exact Or.inl rfl
  | returned out => exact Or.inl rfl
  | resolved sub cust =>
      by_cases h1 : ev.detailType ∈ knownPutTypes
      · refine Or.inr ⟨cust.email, buildItem sub cust env.today env.nowTs, ?_⟩
        simp [dispatchPhase, h1, putItem_buildItem]
      · by_cases h2 : ev.detailType = "customer.subscription.deleted"
        · refine Or.inr ⟨cust.email,
            setAttrs (baseRow t cust.email) (deletedUpdates sub env.today), ?_⟩
          simp [dispatchPhase, h1, h2, updateItem, knownPutTypes]
        · by_cases h3 : ev.detailType = "customer.subscription.paused"
          · refine Or.inr ⟨cust.email,
              setAttrs (baseRow t cust.email) (pausedUpdates env.today), ?_⟩
            simp [dispatchPhase, h1, h2, h3, updateItem, knownPutTypes]
          · exact Or.inl (by simp [dispatchPhase, h1, h2, h3])

/-- Whenever the handler raises, the table is unchanged: every raise
happens before the one storage call of the taken branch, or the storage
call itself failed without writing. -/
theorem lambdaHandler_error_table (env : Env) (ev : Event) (t : Table) (e : Err)
    (h : (lambdaHandler env ev t).1 = .error e) : (lambdaHandler env ev t).2 = t := by
  unfold lambdaHandler at h ⊢
  cases hres : resolvePhase env ev with
  | raised e' => rfl
  | returned out => rfl
  | resolved sub cust =>
      rw [hres] at h
      show (dispatchPhase env ev sub cust t).2 = t
      have h' : (dispatchPhase env ev sub cust t).1 = .error e := h
      by_cases h1 : ev.detailType ∈ knownPutTypes
      · exfalso
        simp [dispatchPhase, h1, putItem_buildItem] at h'
      · by_cases h2 : ev.detailType = "customer.subscription.deleted"
        · exfalso
          simp [dispatchPhase, h1, h2, knownPutTypes] at h'
        · by_cases h3 : ev.detailType = "customer.subscription.paused"
          · exfalso
            simp [dispatchPhase, h1, h2, h3, knownPutTypes] at h'
          · simp [dispatchPhase, h1, h2, h3]

/-! ## Claim theorems -/

/-- An environment whose resolved secret has no `api_key` member. -/
def noKeyEnv : Env := { okEnv with secretOf := fun _ => .ok [] }

/-- An environment whose subscription snapshot has no customer
reference. -/
def noCustomerEnv : Env :=
  { okEnv with subscriptionOf := fun _ => .ok { sampleSub with customer := none } }

/-- C1: the claim says the handler never swallows an error condition and
never returns a normal result describing an error.  The code does exactly
that at lines 139-141 and 147-149 of `dynamo_put.py`: a secret without an
`api_key` member, and a subscription without a customer reference, both
produce a normal `{"status": "error", ...}` return instead of a raise,
contradicting the propagation policy of the spec and the docstring of
the handler itself (`Raises: Exception: If any step in the process fails`). -/
theorem c1_handler_swallows_errors :
    lambdaHandler noKeyEnv sampleEvent [] =
      (.ok (.errorReturn "error" "API key not found."), [])
    ∧ lambdaHandler noCustomerEnv sampleEvent [] =
      (.ok (.errorReturn "error" "No customer ID found in subscription."), []) :=
  ⟨rfl, rfl⟩

/-- C4: for every retry attempt `n ≥ 1` the computed base delay equals
`5 * 2 ^ (n - 1)` seconds, the jittered sleep lies in
`[base, base * 1.1)` for every jitter draw `u` in `[0, 1)`, and the
jittered delays are monotonically non-decreasing across consecutive
attempts. -/
theorem c4_backoff_bounds (n : Nat) (hn : 1 ≤ n) (u u' : ℚ)
    (hu0 : 0 ≤ u) (hu1 : u < 1) (hv0 : 0 ≤ u') (_hv1 : u' < 1) :
    backoffDelay n = 5 * 2 ^ (n - 1)
    ∧ backoffDelay n ≤ jitteredSleep n u
    ∧ jitteredSleep n u < backoffDelay n * (11 / 10)
    ∧ jitteredSleep n u ≤ jitteredSleep (n + 1) u' := by
  have hd : (0 : ℚ) < backoffDelay n := by
    unfold backoffDelay base_delay
    positivity
  have hdd : backoffDelay (n + 1) = 2 * backoffDelay n := by
    obtain ⟨m, rfl⟩ := Nat.exists_eq_add_of_le hn
    show base_delay * 2 ^ (1 + m + 1 - 1) = 2 * (base_delay * 2 ^ (1 + m - 1))
    have e1 : 1 + m + 1 - 1 = m + 1 := by omega
    have e2 : 1 + m - 1 = m := by omega
    rw [e1, e2, pow_succ]
    ring
  refine ⟨rfl, ?_, ?_, ?_⟩
  · unfold jitteredSleep
    nlinarith
  · unfold jitteredSleep
    nlinarith
  · have hs' : backoffDelay (n + 1) ≤ jitteredSleep (n + 1) u' := by
      unfold jitteredSleep
      nlinarith [mul_pos hd (lt_of_lt_of_le (by norm_num : (0:ℚ) < 1) (le_refl 1))]
    have hub : jitteredSleep n u < backoffDelay n * (11 / 10) := by
      unfold jitteredSleep
      nlinarith
    nlinarith

/-- C4 witness: the bounds instantiated at attempt 3 with jitter draws
one half and zero. -/
theorem c4_backoff_bounds_witness :
    backoffDelay 3 = 5 * 2 ^ (3 - 1)
    ∧ backoffDelay 3 ≤ jitteredSleep 3 (1 / 2)
    ∧ jitteredSleep 3 (1 / 2) < backoffDelay 3 * (11 / 10)
    ∧ jitteredSleep 3 (1 / 2) ≤ jitteredSleep (3 + 1) 0 :=
  c4_backoff_bounds 3 (by norm_num) (1 / 2) 0 (by norm_num) (by norm_num)
    (by norm_num) (by norm_num)

/-- C8 counterexample: the empty list can be interpreted as a structured
mapping (the Python `dict` constructor accepts it and yields the empty
dict), yet the output of the Normalizer is not equal to its input, refuting
the pass-through part of the claim; the same input also refutes the
failure part, since the input is not a mapping and no error is raised. -/
theorem c8_normalizer_counterexample :
    parseEventHandler (.list []) = .ok (.dict [])
    ∧ PyValue.dict [] ≠ PyValue.list [] :=
  ⟨rfl, fun h => PyValue.noConfusion h⟩

/-- C8 (amended): inputs that are structured mappings pass through
unchanged; applying the Normalizer twice yields the same result as
applying it once; inputs that are iterables of key-value pairs — a list
whose elements all parse as pairs, or the empty string — are converted
to the mapping those pairs denote rather than passed through; a list
with an element that does not parse as a pair, the non-iterable scalar
inputs, and non-empty strings fail with `MalformedEventError`. -/
theorem c8_normalizer_amended :
    (∀ kvs, parseEventHandler (.dict kvs) = .ok (.dict kvs))
    ∧ (∀ x y, parseEventHandler x = .ok y → parseEventHandler y = .ok y)
    ∧ (∀ elems ps, elems.mapM pairOf = some ps →
        parseEventHandler (.list elems) = .ok (.dict (dictOfPairs ps)))
    ∧ parseEventHandler (.str "") = .ok (.dict [])
    ∧ (∀ elems, elems.mapM pairOf = none →
        parseEventHandler (.list elems) = .error .malformedEvent)
    ∧ (∀ n, parseEventHandler (.int n) = .error .malformedEvent)
    ∧ (∀ b, parseEventHandler (.bool b) = .error .malformedEvent)
    ∧ parseEventHandler .pyNone = .error .malformedEvent
    ∧ (∀ s, s ≠ "" → parseEventHandler (.str s) = .error .malformedEvent) := by
  refine ⟨fun kvs => rfl, ?_, ?_, rfl, ?_, fun n => rfl, fun b => rfl, rfl, fun s hs => ?_⟩
  · intro x y h
    cases x with
    | dict kvs =>
        simp only [parseEventHandler, Except.ok.injEq] at h
        subst h
        rfl
    | list elems =>
        simp only [parseEventHandler] at h
        cases hm : elems.mapM pairOf with
        | none => rw [hm] at h; simp at h
        | some ps =>
            rw [hm] at h
            simp only [Except.ok.injEq] at h
            subst h
            rfl
    | str s =>
        simp only [parseEventHandler] at h
        by_cases hs : s = ""
        · rw [if_pos hs] at h
          simp only [Except.ok.injEq] at h
          subst h
          rfl
        · rw [if_neg hs] at h
          simp at h
    | int n => simp [parseEventHandler] at h
    | bool b => simp [parseEventHandler] at h
    | pyNone => simp [parseEventHandler] at h
  · intro elems ps hm
    simp only [parseEventHandler]
    rw [hm]
  · intro elems hm
    simp only [parseEventHandler]
    rw [hm]
  · simp [parseEventHandler, hs]

/-- C8 witness: the amended claim instantiated at a one-entry mapping, a
list of two pair-like elements (a two-element list and a two-character
string), a list with a non-pair element, and a non-empty string. -/
theorem c8_normalizer_amended_witness :
    parseEventHandler (.dict [(.str "a", .int 1)]) = .ok (.dict [(.str "a", .int 1)])
    ∧ parseEventHandler (.list [.list [.str "a", .int 1], .str "bc"]) =
        .ok (.dict (dictOfPairs [(.str "a", .int 1), (.str "b", .str "c")]))
    ∧ parseEventHandler (.list [.int 1]) = .error .malformedEvent
    ∧ parseEventHandler (.str "ab") = .error .malformedEvent :=
  ⟨c8_normalizer_amended.1 [(.str "a", .int 1)],
   c8_normalizer_amended.2.2.1 [.list [.str "a", .int 1], .str "bc"]
     [(.str "a", .int 1), (.str "b", .str "c")] rfl,
   c8_normalizer_amended.2.2.2.2.1 [.int 1] rfl,
   c8_normalizer_amended.2.2.2.2.2.2.2.2 "ab" (by decide)⟩

/-- All five known event-type discriminators. -/
def knownEventTypes : List String :=
  knownPutTypes ++ ["customer.subscription.deleted", "customer.subscription.paused"]

/-- An event whose discriminator is the empty string. -/
def emptyTypeEvent : Event := { detailType := "", objectId := "sub_1" }

/-- C2 counterexample: the empty string is a discriminator that is not
one of the five known kinds, yet the handler fails with the line 152-154
presence-validation error (`not event_type` is True for the empty
string), not with the unsupported-event-type error of line 226, refuting
the claim as universally stated. -/
theorem c2_unknown_type_counterexample :
    (lambdaHandler okEnv emptyTypeEvent []).1 =
      .error (.validation "Missing subscription, customer, or event_type in the event.")
    ∧ ∀ ty, (lambdaHandler okEnv emptyTypeEvent []).1 ≠
        .error (.unsupportedEventType ty) := by
  constructor
  · rfl
  · intro ty h
    rw [show (lambdaHandler okEnv emptyTypeEvent []).1 =
        .error (.validation "Missing subscription, customer, or event_type in the event.")
      from rfl] at h
    simp at h

/-- C2 (amended): for every event whose discriminator is not one of the
five known kinds, no storage mutation occurs (unconditionally); and
whenever resolution reaches the dispatch (in particular the discriminator
is non-empty), the handler raises the unsupported-event-type error.  An
empty discriminator instead fails the presence validation, still with no
storage mutation. -/
theorem c2_unknown_type_no_mutation (env : Env) (ev : Event) (t : Table)
    (h : ev.detailType ∉ knownEventTypes) :
    (lambdaHandler env ev t).2 = t
    ∧ ∀ sub cust, resolvePhase env ev = .resolved sub cust →
        (lambdaHandler env ev t).1 =
          .error (.unsupportedEventType ("Unhandled event type: " ++ ev.detailType)) := by
  have h1 : ev.detailType ∉ knownPutTypes := by
    intro hh
    exact h (by simp [knownEventTypes, hh])
  have h2 : ev.detailType ≠ "customer.subscription.deleted" := by
    intro hh
    exact h (by simp [knownEventTypes, knownPutTypes, hh])
  have h3 : ev.detailType ≠ "customer.subscription.paused" := by
    intro hh
    exact h (by simp [knownEventTypes, knownPutTypes, hh])
  constructor
  · unfold lambdaHandler
    cases resolvePhase env ev with
    | raised e => rfl
    | returned out => rfl
    | resolved sub cust => simp [dispatchPhase, h1, h2, h3]
  · intro sub cust hres
    unfold lambdaHandler
    rw [hres]
    simp [dispatchPhase, h1, h2, h3]

/-- An event with an unknown, non-empty discriminator. -/
def unknownTypeEvent : Event :=
  { detailType := "payment_intent.created", objectId := "sub_1" }

/-- C2 witness: the amended claim at a concrete unknown discriminator in
an environment where every lookup succeeds. -/
theorem c2_unknown_type_no_mutation_witness :
    (lambdaHandler okEnv unknownTypeEvent []).2 = ([] : Table)
    ∧ (lambdaHandler okEnv unknownTypeEvent []).1 =
        .error (.unsupportedEventType
          ("Unhandled event type: " ++ unknownTypeEvent.detailType)) := by
  have h := c2_unknown_type_no_mutation okEnv unknownTypeEvent [] (by decide)
  exact ⟨h.1, h.2 sampleSub sampleCust (by decide)⟩

/-- Attempt numbers stay bounded by the loop bound: the exit attempt of
the retry loop is at most the largest attempt number iterated over. -/
theorem retrieveCustomerGo_attempts_le (cid : String) (oracle : Nat → CustomerResp)
    (l : List Nat) (b : Nat) (hb : ∀ a ∈ l, a ≤ b) :
    (retrieveCustomerGo cid oracle l).2 ≤ b := by
  induction l with
  | nil => simp [retrieveCustomerGo]
  | cons a rest ih =>
      have ha : a ≤ b := hb a (by simp)
      have hrest : ∀ x ∈ rest, x ≤ b := fun x hx => hb x (by simp [hx])
      cases ho : oracle a with
      | found c => simp [retrieveCustomerGo, ho, ha]
      | notFound =>
          by_cases he : a = maxRetries
          · subst he
            simp [retrieveCustomerGo, ho, ha]
          · simp [retrieveCustomerGo, ho, he, ih hrest]
      | invalidRequest m => simp [retrieveCustomerGo, ho, ha]
      | stripeFailure m => simp [retrieveCustomerGo, ho, ha]
      | otherFailure m => simp [retrieveCustomerGo, ho, ha]

/-- C3: the customer lookup is attempted at most 5 times; with all
earlier attempts not-found, a success at attempt `j` returns at attempt
`j` and any non-not-found failure at attempt `j` aborts at attempt `j`
with no further attempt; five not-found attempts raise the
customer-resolution error; and whenever the handler raises, the table is
unchanged (the customer resolution happens before any storage call). -/
theorem c3_customer_retry_policy (cid : String) (oracle : Nat → CustomerResp) :
    (retrieveCustomer cid oracle).2 ≤ maxRetries
    ∧ (∀ j c, 1 ≤ j → j ≤ maxRetries →
        (∀ i, 1 ≤ i → i < j → oracle i = .notFound) →
        oracle j = .found c → retrieveCustomer cid oracle = (.ok c, j))
    ∧ (∀ j m, 1 ≤ j → j ≤ maxRetries →
        (∀ i, 1 ≤ i → i < j → oracle i = .notFound) →
        ((oracle j = .invalidRequest m →
            retrieveCustomer cid oracle = (.error (.stripeInvalid m), j))
         ∧ (oracle j = .stripeFailure m →
            retrieveCustomer cid oracle = (.error (.stripeOther m), j))
         ∧ (oracle j = .otherFailure m →
            retrieveCustomer cid oracle = (.error (.unexpected m), j))))
    ∧ ((∀ i, 1 ≤ i → i ≤ maxRetries → oracle i = .notFound) →
        retrieveCustomer cid oracle =
          (.error (.customerResolution
            ("Customer " ++ cid ++ " not found after "
              ++ toString maxRetries ++ " attempts.")), maxRetries))
    ∧ (∀ env ev t e, (lambdaHandler env ev t).1 = .error e →
        (lambdaHandler env ev t).2 = t) := by
  refine ⟨?_, ?_, ?_, ?_, lambdaHandler_error_table⟩
  · exact retrieveCustomerGo_attempts_le cid oracle _ maxRetries (by decide)
  · intro j c hj1 hj5 hpre hj
    have hj5' : j ≤ 5 := hj5
    interval_cases j
    · simp [retrieveCustomer, retrieveCustomerGo, maxRetries, hj]
    · simp [retrieveCustomer, retrieveCustomerGo, maxRetries, hj,
        hpre 1 (by norm_num) (by norm_num)]
    · simp [retrieveCustomer, retrieveCustomerGo, maxRetries, hj,
        hpre 1 (by norm_num) (by norm_num), hpre 2 (by norm_num) (by norm_num)]
    · simp [retrieveCustomer, retrieveCustomerGo, maxRetries, hj,
        hpre 1 (by norm_num) (by norm_num), hpre 2 (by norm_num) (by norm_num),
        hpre 3 (by norm_num) (by norm_num)]
    · simp [retrieveCustomer, retrieveCustomerGo, maxRetries, hj,
        hpre 1 (by norm_num) (by norm_num), hpre 2 (by norm_num) (by norm_num),
        hpre 3 (by norm_num) (by norm_num), hpre 4 (by norm_num) (by norm_num)]
  · intro j m hj1 hj5 hpre
    have hj5' : j ≤ 5 := hj5
    refine ⟨fun hj => ?_, fun hj => ?_, fun hj => ?_⟩ <;> interval_cases j <;>
      simp [retrieveCustomer, retrieveCustomerGo, maxRetries, hj, hpre]
  · intro hall
    have h1 := hall 1 (by norm_num) (by decide)
    have h2 := hall 2 (by norm_num) (by decide)
    have h3 := hall 3 (by norm_num) (by decide)
    have h4 := hall 4 (by norm_num) (by decide)
    have h5 := hall 5 (by norm_num) (by decide)
    simp [retrieveCustomer, retrieveCustomerGo, maxRetries, h1, h2, h3, h4, h5]

/-- An oracle that reports not-found on the first two attempts and
succeeds on the third. -/
def flakyOracle : Nat → CustomerResp :=
  fun i => if i ≤ 2 then .notFound else .found sampleCust

/-- C3 witness: with two not-found attempts followed by a success, the
lookup returns the customer at attempt 3, within the 5-attempt bound. -/
theorem c3_customer_retry_policy_witness :
    retrieveCustomer "cus_1" flakyOracle = (.ok sampleCust, 3)
    ∧ (retrieveCustomer "cus_1" flakyOracle).2 ≤ maxRetries := by
  have h := c3_customer_retry_policy "cus_1" flakyOracle
  refine ⟨h.2.1 3 sampleCust (by norm_num) (by decide) ?_ (by decide), h.1⟩
  intro i h1 h2
  interval_cases i <;> rfl

/-- The deleted branch of the handler, reduced: the table holds the
base row updated by the three SET attributes. -/
theorem lambdaHandler_deleted_eq (env : Env) (ev : Event) (t : Table)
    (sub : StripeSubscription) (cust : StripeCustomer)
    (hres : resolvePhase env ev = .resolved sub cust)
    (hty : ev.detailType = "customer.subscription.deleted") :
    (lambdaHandler env ev t).2 =
      setRow t cust.email (setAttrs (baseRow t cust.email) (deletedUpdates sub env.today)) := by
  have h1 : ev.detailType ∉ knownPutTypes := by rw [hty]; decide
  unfold lambdaHandler
  rw [hres]
  simp [dispatchPhase, h1, hty, knownPutTypes, updateItem]

/-- The paused branch of the handler, reduced. -/
theorem lambdaHandler_paused_eq (env : Env) (ev : Event) (t : Table)
    (sub : StripeSubscription) (cust : StripeCustomer)
    (hres : resolvePhase env ev = .resolved sub cust)
    (hty : ev.detailType = "customer.subscription.paused") :
    (lambdaHandler env ev t).2 =
      setRow t cust.email (setAttrs (baseRow t cust.email) (pausedUpdates env.today)) := by
  have h1 : ev.detailType ∉ knownPutTypes := by rw [hty]; decide
  have h2 : ev.detailType ≠ "customer.subscription.deleted" := by rw [hty]; decide
  unfold lambdaHandler
  rw [hres]
  simp [dispatchPhase, h1, h2, hty, knownPutTypes, updateItem]

/-- C5: for a deleted event applied to an existing stored row, only the
status, end_date and last_updated attributes change — status becomes
`canceled`, end_date the cancellation timestamp of the subscription, and
last_updated the date stamp of the invocation — while every other attribute
previously stored under the email key is unchanged. -/
theorem c5_deleted_frame (env : Env) (ev : Event) (t : Table)
    (sub : StripeSubscription) (cust : StripeCustomer) (r : Row)
    (hres : resolvePhase env ev = .resolved sub cust)
    (hty : ev.detailType = "customer.subscription.deleted")
    (hrow : lookupRow t cust.email = some r) :
    ∃ r', lookupRow ((lambdaHandler env ev t).2) cust.email = some r'
      ∧ lookupAttr r' "status" = some (.s "canceled")
      ∧ lookupAttr r' "end_date" = some (optInt sub.canceled_at)
      ∧ lookupAttr r' "last_updated" = some (.s env.today)
      ∧ ∀ a, a ≠ "status" → a ≠ "end_date" → a ≠ "last_updated" →
          lookupAttr r' a = lookupAttr r a := by
  have hbase : baseRow t cust.email = r := by simp [baseRow, hrow]
  have hstep : setAttrs r (deletedUpdates sub env.today) =
      setAttr (setAttr (setAttr r "status" (.s "canceled"))
        "end_date" (optInt sub.canceled_at)) "last_updated" (.s env.today) := rfl
  refine ⟨setAttrs r (deletedUpdates sub env.today), ?_, ?_, ?_, ?_, ?_⟩
  · rw [lambdaHandler_deleted_eq env ev t sub cust hres hty, hbase]
    exact lookupRow_setRow_self t cust.email _
  · rw [hstep, lookupAttr_setAttr_ne _ _ _ _ (by decide),
      lookupAttr_setAttr_ne _ _ _ _ (by decide), lookupAttr_setAttr_self]
  · rw [hstep, lookupAttr_setAttr_ne _ _ _ _ (by decide), lookupAttr_setAttr_self]
  · rw [hstep, lookupAttr_setAttr_self]
  · intro a ha1 ha2 ha3
    rw [hstep, lookupAttr_setAttr_ne _ _ _ _ ha3,
      lookupAttr_setAttr_ne _ _ _ _ ha2, lookupAttr_setAttr_ne _ _ _ _ ha1]

/-- An event of the deleted kind for the sample subscription. -/
def deletedEvent : Event :=
  { detailType := "customer.subscription.deleted", objectId := "sub_1" }

/-- An event of the paused kind for the sample subscription. -/
def pausedEvent : Event :=
  { detailType := "customer.subscription.paused", objectId := "sub_1" }

/-- A stored row predating the invocation, with an attribute the update
expressions never touch. -/
def priorRow : Row :=
  [("email", .s "a@example.com"), ("plan_id", .s "plan_0"), ("status", .s "active")]

/-- A table holding `priorRow` under the email of the sample customer. -/
def priorTable : Table := [("a@example.com", priorRow)]

/-- C5 witness: the frame property at the sample fixtures. -/
theorem c5_deleted_frame_witness :
    ∃ r', lookupRow ((lambdaHandler okEnv deletedEvent priorTable).2) sampleCust.email = some r'
      ∧ lookupAttr r' "status" = some (.s "canceled")
      ∧ lookupAttr r' "end_date" = some (optInt sampleSub.canceled_at)
      ∧ lookupAttr r' "last_updated" = some (.s okEnv.today)
      ∧ ∀ a, a ≠ "status" → a ≠ "end_date" → a ≠ "last_updated" →
          lookupAttr r' a = lookupAttr priorRow a :=
  c5_deleted_frame okEnv deletedEvent priorTable sampleSub sampleCust priorRow
    (by decide) rfl (by decide)

/-- C6: for a paused event applied to an existing stored row, only the
status and last_updated attributes change — status becomes `paused` and
last_updated the date stamp of the invocation — while every other attribute
previously stored under the email key is unchanged. -/
theorem c6_paused_frame (env : Env) (ev : Event) (t : Table)
    (sub : StripeSubscription) (cust : StripeCustomer) (r : Row)
    (hres : resolvePhase env ev = .resolved sub cust)
    (hty : ev.detailType = "customer.subscription.paused")
    (hrow : lookupRow t cust.email = some r) :
    ∃ r', lookupRow ((lambdaHandler env ev t).2) cust.email = some r'
      ∧ lookupAttr r' "status" = some (.s "paused")
      ∧ lookupAttr r' "last_updated" = some (.s env.today)
      ∧ ∀ a, a ≠ "status" → a ≠ "last_updated" →
          lookupAttr r' a = lookupAttr r a := by
  have hbase : baseRow t cust.email = r := by simp [baseRow, hrow]
  have hstep : setAttrs r (pausedUpdates env.today) =
      setAttr (setAttr r "status" (.s "paused")) "last_updated" (.s env.today) := rfl
  refine ⟨setAttrs r (pausedUpdates env.today), ?_, ?_, ?_, ?_⟩
  · rw [lambdaHandler_paused_eq env ev t sub cust hres hty, hbase]
    exact lookupRow_setRow_self t cust.email _
  · rw [hstep, lookupAttr_setAttr_ne _ _ _ _ (by decide), lookupAttr_setAttr_self]
  · rw [hstep, lookupAttr_setAttr_self]
  · intro a ha1 ha2
    rw [hstep, lookupAttr_setAttr_ne _ _ _ _ ha2, lookupAttr_setAttr_ne _ _ _ _ ha1]

/-- C6 witness: the frame property at the sample fixtures. -/
theorem c6_paused_frame_witness :
    ∃ r', lookupRow ((lambdaHandler okEnv pausedEvent priorTable).2) sampleCust.email = some r'
      ∧ lookupAttr r' "status" = some (.s "paused")
      ∧ lookupAttr r' "last_updated" = some (.s okEnv.today)
      ∧ ∀ a, a ≠ "status" → a ≠ "last_updated" →
          lookupAttr r' a = lookupAttr priorRow a :=
  c6_paused_frame okEnv pausedEvent priorTable sampleSub sampleCust priorRow
    (by decide) rfl (by decide)

/-- C7: for every event with a created, resumed or updated discriminator,
running the handler twice against the same upstream data (the same
environment, including the snapshots and clock readings) leaves the same
table — and hence the same stored record under the email key — as
running it once: the full-replace upsert is idempotent. -/
theorem c7_put_idempotent (env : Env) (ev : Event) (t : Table)
    (h : ev.detailType ∈ knownPutTypes) :
    (lambdaHandler env ev ((lambdaHandler env ev t).2)).2 = (lambdaHandler env ev t).2 := by
  unfold lambdaHandler
  cases hres : resolvePhase env ev with
  | raised e => rfl
  | returned out => rfl
  | resolved sub cust =>
      show (dispatchPhase env ev sub cust ((dispatchPhase env ev sub cust t).2)).2 =
        (dispatchPhase env ev sub cust t).2
      have hput : ∀ s : Table, (dispatchPhase env ev sub cust s).2 =
          setRow s cust.email (buildItem sub cust env.today env.nowTs) := by
        intro s
        simp [dispatchPhase, h, putItem_buildItem]
      rw [hput ((dispatchPhase env ev sub cust t).2), hput t, setRow_setRow_same]

/-- C7 witness: replaying the sample created event on the empty table. -/
theorem c7_put_idempotent_witness :
    (lambdaHandler okEnv sampleEvent ((lambdaHandler okEnv sampleEvent []).2)).2 =
      (lambdaHandler okEnv sampleEvent []).2 :=
  c7_put_idempotent okEnv sampleEvent [] (by decide)

/-- C9: the Upserter never removes a row: for every environment, event
and table, a row present under an email key before the invocation is
still present (possibly mutated) afterwards. -/
theorem c9_no_row_removal (env : Env) (ev : Event) (t : Table)
    (email0 : String) (r : Row) (h : lookupRow t email0 = some r) :
    ∃ r', lookupRow ((lambdaHandler env ev t).2) email0 = some r' := by
  rcases lambdaHandler_table_shape env ev t with hs | ⟨k, row, hs⟩
  · rw [hs]
    exact ⟨r, h⟩
  · rw [hs]
    by_cases hk : email0 = k
    · subst hk
      exact ⟨row, lookupRow_setRow_self t email0 row⟩
    · rw [lookupRow_setRow_ne t k email0 row hk]
      exact ⟨r, h⟩

/-- C9 witness: the prior row survives a deleted event. -/
theorem c9_no_row_removal_witness :
    ∃ r', lookupRow ((lambdaHandler okEnv deletedEvent priorTable).2) "a@example.com" = some r' :=
  c9_no_row_removal okEnv deletedEvent priorTable "a@example.com" priorRow (by decide)

/-- C10: a deleted or paused event arriving for an email key with no
stored row creates a new row rather than failing or leaving storage
unchanged; the new row holds exactly the email key plus the attributes of
the update expression (status, last_updated, and end_date for the
deleted kind). -/
theorem c10_update_creates_row (env : Env) (ev : Event) (t : Table)
    (sub : StripeSubscription) (cust : StripeCustomer)
    (hres : resolvePhase env ev = .resolved sub cust)
    (habsent : lookupRow t cust.email = none) :
    (ev.detailType = "customer.subscription.deleted" →
      ∃ r', lookupRow ((lambdaHandler env ev t).2) cust.email = some r'
        ∧ lookupAttr r' "email" = some (.s cust.email)
        ∧ lookupAttr r' "status" = some (.s "canceled")
        ∧ lookupAttr r' "end_date" = some (optInt sub.canceled_at)
        ∧ lookupAttr r' "last_updated" = some (.s env.today)
        ∧ ∀ a, a ≠ "email" → a ≠ "status" → a ≠ "end_date" → a ≠ "last_updated" →
            lookupAttr r' a = none)
    ∧ (ev.detailType = "customer.subscription.paused" →
      ∃ r', lookupRow ((lambdaHandler env ev t).2) cust.email = some r'
        ∧ lookupAttr r' "email" = some (.s cust.email)
        ∧ lookupAttr r' "status" = some (.s "paused")
        ∧ lookupAttr r' "last_updated" = some (.s env.today)
        ∧ ∀ a, a ≠ "email" → a ≠ "status" → a ≠ "last_updated" →
            lookupAttr r' a = none) := by
  have hbase : baseRow t cust.email = [("email", AttrValue.s cust.email)] := by
    simp [baseRow, habsent]
  constructor
  · intro hty
    have hstep : setAttrs [("email", AttrValue.s cust.email)] (deletedUpdates sub env.today) =
        setAttr (setAttr (setAttr [("email", AttrValue.s cust.email)]
          "status" (.s "canceled")) "end_date" (optInt sub.canceled_at))
          "last_updated" (.s env.today) := rfl
    refine ⟨setAttrs [("email", AttrValue.s cust.email)] (deletedUpdates sub env.today),
      ?_, ?_, ?_, ?_, ?_, ?_⟩
    · rw [lambdaHandler_deleted_eq env ev t sub cust hres hty, hbase]
      exact lookupRow_setRow_self t cust.email _
    · rw [hstep, lookupAttr_setAttr_ne _ _ _ _ (by decide),
        lookupAttr_setAttr_ne _ _ _ _ (by decide),
        lookupAttr_setAttr_ne _ _ _ _ (by decide)]
      simp [lookupAttr]
    · rw [hstep, lookupAttr_setAttr_ne _ _ _ _ (by decide),
        lookupAttr_setAttr_ne _ _ _ _ (by decide), lookupAttr_setAttr_self]
    · rw [hstep, lookupAttr_setAttr_ne _ _ _ _ (by decide), lookupAttr_setAttr_self]
    · rw [hstep, lookupAttr_setAttr_self]
    · intro a ha1 ha2 ha3 ha4
      rw [hstep, lookupAttr_setAttr_ne _ _ _ _ ha4, lookupAttr_setAttr_ne _ _ _ _ ha3,
        lookupAttr_setAttr_ne _ _ _ _ ha2]
      simp [lookupAttr]
      exact fun hh => ha1 hh.symm
  · intro hty
    have hstep : setAttrs [("email", AttrValue.s cust.email)] (pausedUpdates env.today) =
        setAttr (setAttr [("email", AttrValue.s cust.email)]
          "status" (.s "paused")) "last_updated" (.s env.today) := rfl
    refine ⟨setAttrs [("email", AttrValue.s cust.email)] (pausedUpdates env.today),
      ?_, ?_, ?_, ?_, ?_⟩
    · rw [lambdaHandler_paused_eq env ev t sub cust hres hty, hbase]
      exact lookupRow_setRow_self t cust.email _
    · rw [hstep, lookupAttr_setAttr_ne _ _ _ _ (by decide),
        lookupAttr_setAttr_ne _ _ _ _ (by decide)]
      simp [lookupAttr]
    · rw [hstep, lookupAttr_setAttr_ne _ _ _ _ (by decide), lookupAttr_setAttr_self]
    · rw [hstep, lookupAttr_setAttr_self]
    · intro a ha1 ha2 ha3
      rw [hstep, lookupAttr_setAttr_ne _ _ _ _ ha3, lookupAttr_setAttr_ne _ _ _ _ ha2]
      simp [lookupAttr]
      exact fun hh => ha1 hh.symm

/-- C10 witness: a deleted event on the empty table creates the minimal
canceled row. -/
theorem c10_update_creates_row_witness :
    ∃ r', lookupRow ((lambdaHandler okEnv deletedEvent []).2) sampleCust.email = some r'
      ∧ lookupAttr r' "email" = some (.s sampleCust.email)
      ∧ lookupAttr r' "status" = some (.s "canceled")
      ∧ lookupAttr r' "end_date" = some (optInt sampleSub.canceled_at)
      ∧ lookupAttr r' "last_updated" = some (.s okEnv.today)
      ∧ ∀ a, a ≠ "email" → a ≠ "status" → a ≠ "end_date" → a ≠ "last_updated" →
          lookupAttr r' a = none :=
  (c10_update_creates_row okEnv deletedEvent [] sampleSub sampleCust (by decide) rfl).1 rfl

end StripeEventBridge
